import Mathlib

/-!
Verification development for the Odoo recruitment CV-extraction addons
(`hr_recruitment_extract_openai` / `hr_recruitment_extract_gemini`).

The Python models are shallowly embedded: record values become Lean
structures, database tables become lists of records, the per-document
transaction loop of the bulk extractor becomes a fold over the list of
attachments, and the external text-understanding service is a function
parameter at the call boundary (its concrete behaviour is irrelevant to
the orchestration logic being verified).  Machine-level effects (SQL
row locks, cursor commits) are modelled by the state-threading itself:
a committed per-document transaction is one step of the fold, and a
failed one leaves everything but the failure bookkeeping unchanged,
which is exactly what the source's per-document cursor achieves.
-/

/-! ## Basic model types -/

/-- An `ir.attachment` record as seen by the bulk CV loop: its id, its
display name and its (base64) payload.  An empty `datas` string stands
for an Odoo binary field that is unset or empty (falsy in Python). -/
structure Attachment where
  id : Nat
  name : String
  datas : String
deriving Repr, DecidableEq

/-- The OpenAI configuration carried by `res.company`
(`res_company.py`): both fields are `fields.Char`, whose unset value is
falsy; `none` stands for an unset field. -/
structure Company where
  openai_api_key : Option String
  openai_model : Option String
deriving Repr, DecidableEq

/-- Python's `a or b` on a string field: `b` when `a` is `None`/empty. -/
def orElseStr (a : Option String) (b : String) : String :=
  match a with
  | none => b
  | some s => if s = "" then b else s

/-- The whitespace class of Python's `str.strip` (ASCII part). -/
def isPySpace (c : Char) : Bool :=
  c = ' ' || c = '\t' || c = '\n' || c = '\r' || c = '\x0b' || c = '\x0c'

/-- Python's `str.strip()`: drop leading and trailing whitespace. -/
def pyStrip (s : String) : String :=
  ⟨((s.data.dropWhile isPySpace).reverse.dropWhile isPySpace).reverse⟩

/-- `HrApplicant._openai_get_client` (hr_applicant.py lines 259-279),
restricted to its pure configuration logic: strip whitespace from the
key and the model name (the model name defaulting to gpt-4o when the
field is falsy) and fail on an empty result.  The returned pair is the
(api_key, model_name) the client would be built from. -/
def openai_get_client (company : Company) : Except String (String × String) :=
  let api_key := pyStrip (orElseStr company.openai_api_key "")
  let model_name := pyStrip (orElseStr company.openai_model "gpt-4o")
  if api_key = "" then
    .error "OpenAI API Key is not set in HR Settings (or is invalid after stripping whitespace)."
  else if model_name = "" then
    .error "OpenAI Model is not set in HR Settings (or is invalid after stripping whitespace)."
  else
    .ok (api_key, model_name)

/-! ## Bulk CV processing state (`hr_job.py`) -/

/-- The subset of `hr.job` state driving one bulk CV run
(hr_job.py fields, lines 48-139).  Attachment sets are lists of
records / ids; the boolean pair mirrors
`bulk_processing_complete` / `bulk_processing_failed`, and
`bulk_processing_in_progress` is the queue-derived liveness flag the
start guard reads. -/
structure JobState where
  cv_attachment_ids : List Attachment
  processed_cv_attachment_ids : List Nat
  processed_cv_count : Nat
  failed_cv_count : Nat
  total_cv_count : Nat
  bulk_processing_in_progress : Bool
  bulk_processing_complete : Bool
  bulk_processing_failed : Bool
deriving Repr, DecidableEq

/-- The loop-local accumulator of `HrJob._process_bulk_extraction`
(hr_job.py lines 530-532): `successful_ids`, `errors`, `fail_count`. -/
structure BulkAcc where
  successful_ids : List Nat
  errors : List String
  fail_count : Nat
deriving Repr, DecidableEq

def BulkAcc.empty : BulkAcc := ⟨[], [], 0⟩

/-- Modelled from the spec: `_openai_call` is invoked at hr_job.py
line 562 but its definition is not part of this repository snapshot
(only `_openai_call_for_cv` is, hr_applicant.py lines 281-350, which
validates the configuration via `_openai_get_client` before issuing
the request).  Per spec section 6 the service "must be called with a
caller-supplied configuration (API credential, model identifier);
absence of either is a fatal configuration error", so the model checks
the configuration first and then performs the external request, the
latter being an abstract parameter. -/
def openai_call (company : Company)
    (service : Attachment → Except String String)
    (att : Attachment) : Except String String :=
  match openai_get_client company with
  | .error e => .error e
  | .ok _ => service att

/-- The per-document extraction transaction, hr_job.py lines 541-602
(section "1.1 Extraction Transaction").  The steps that live in the
repository are translated directly: the empty-data guard and the
AI call (`openai_call` above).  `persist` stands for the
applicant-creation / data-write tail of the transaction, returning the
new applicant id; its failure modes are database errors the embedding
cannot enumerate, so it is kept abstract and every theorem below
quantifies over it.  An `Except.error` is a raised exception: the
source's `with ... cursor()` block then discards every write of the
transaction, which the embedding renders by returning no state at all
from a failed document. -/
def extract_one (company : Company)
    (service : Attachment → Except String String)
    (persist : Attachment → String → Except String Nat)
    (att : Attachment) : Except String Nat :=
  if att.datas = "" then
    .error ("Skipping CV " ++ att.name ++ ": Attachment data is empty.")
  else
    match openai_call company service att with
    | .error e => .error e
    | .ok extracted => persist att extracted

/-- The per-document stats transaction, hr_job.py lines 611-633
(section "1.2 Stats Update Transaction"): on failure increment
`failed_cv_count`, append "name: message" to the error list and bump
`fail_count`; on success increment `processed_cv_count`, add the
attachment to `processed_cv_attachment_ids` and record the new
applicant id. -/
def bulk_step (doc_result : Attachment → Except String Nat)
    (st : JobState × BulkAcc) (att : Attachment) : JobState × BulkAcc :=
  match doc_result att with
  | .error e =>
    ({ st.1 with failed_cv_count := st.1.failed_cv_count + 1 },
     { st.2 with
        errors := st.2.errors ++ [att.name ++ ": " ++ e],
        fail_count := st.2.fail_count + 1 })
  | .ok applicant_id =>
    ({ st.1 with
        processed_cv_count := st.1.processed_cv_count + 1,
        processed_cv_attachment_ids :=
          st.1.processed_cv_attachment_ids ++ [att.id] },
     { st.2 with successful_ids := st.2.successful_ids ++ [applicant_id] })

/-- `HrJob._process_bulk_extraction` (hr_job.py lines 525-640): the
sequential fold of the per-document transaction pair over the list of
attachments to process. -/
def process_bulk_extraction (doc_result : Attachment → Except String Nat)
    (atts : List Attachment) (st : JobState × BulkAcc) : JobState × BulkAcc :=
  atts.foldl (bulk_step doc_result) st

/-- `HrJob.action_process_cvs` (hr_job.py lines 279-355), its pure
decision part: the guard chain (run already live, no attachments, no
unprocessed attachments), the to-process set difference, and the
counter-reset write of lines 332-340.  The result is the written job
state paired with the list of attachments handed to the background
job; an `Except.error` is a raised `UserError`. -/
def action_process_cvs (job : JobState) :
    Except String (JobState × List Attachment) :=
  if job.bulk_processing_in_progress then
    .error "Processing is already in progress. Please wait until it is complete."
  else if job.cv_attachment_ids = [] then
    .error "Please attach CV files before processing."
  else
    let attachments_to_process := job.cv_attachment_ids.filter
      (fun a => a.id ∉ job.processed_cv_attachment_ids)
    if attachments_to_process = [] then
      .error "All attached CVs have already been processed successfully. Please delete the attached files to start a new batch."
    else
      .ok ({ job with
              processed_cv_attachment_ids := [],
              processed_cv_count := 0,
              failed_cv_count := 0,
              total_cv_count := attachments_to_process.length,
              bulk_processing_complete := false,
              bulk_processing_failed := false },
           attachments_to_process)

/-- The run-final write of `_process_cvs_thread` (hr_job.py lines
784-805): mark the run complete, failed when any document failed, and
clear the queue-job uuid — which makes the computed
`bulk_processing_in_progress` flag false again. -/
def finalize_bulk_run (st : JobState) (fail_count : Nat) : JobState :=
  { st with
      bulk_processing_complete := true,
      bulk_processing_failed := fail_count > 0,
      bulk_processing_in_progress := false }

/-! ### Run characterization

One master lemma describes the whole fold; the per-claim theorems are
projections of it. -/

/-- Error line recorded for a failed document. -/
def doc_error_line (doc_result : Attachment → Except String Nat)
    (att : Attachment) : Option String :=
  match doc_result att with
  | .error e => some (att.name ++ ": " ++ e)
  | .ok _ => none

/-- Applicant id recorded for a successful document. -/
def doc_ok_id (doc_result : Attachment → Except String Nat)
    (att : Attachment) : Option Nat :=
  match doc_result att with
  | .error _ => none
  | .ok i => some i

/-- Attachment id recorded as processed for a successful document. -/
def doc_ok_att (doc_result : Attachment → Except String Nat)
    (att : Attachment) : Option Nat :=
  match doc_result att with
  | .error _ => none
  | .ok _ => some att.id

theorem bulk_run_characterization
    (f : Attachment → Except String Nat) (atts : List Attachment)
    (st : JobState) (acc : BulkAcc) :
    let res := process_bulk_extraction f atts (st, acc)
    res.1.processed_cv_count
        = st.processed_cv_count + (atts.filterMap (doc_ok_id f)).length ∧
    res.1.failed_cv_count
        = st.failed_cv_count + (atts.filterMap (doc_error_line f)).length ∧
    res.1.total_cv_count = st.total_cv_count ∧
    res.1.cv_attachment_ids = st.cv_attachment_ids ∧
    res.1.processed_cv_attachment_ids
        = st.processed_cv_attachment_ids ++ atts.filterMap (doc_ok_att f) ∧
    res.1.bulk_processing_in_progress = st.bulk_processing_in_progress ∧
    res.1.bulk_processing_complete = st.bulk_processing_complete ∧
    res.1.bulk_processing_failed = st.bulk_processing_failed ∧
    res.2.successful_ids = acc.successful_ids ++ atts.filterMap (doc_ok_id f) ∧
    res.2.errors = acc.errors ++ atts.filterMap (doc_error_line f) ∧
    res.2.fail_count = acc.fail_count + (atts.filterMap (doc_error_line f)).length := by
  induction atts generalizing st acc with
  | nil => simp [process_bulk_extraction]
  | cons a l ih =>
    simp only [process_bulk_extraction, List.foldl_cons, List.filterMap_cons]
    have h := ih ((bulk_step f (st, acc) a).1) ((bulk_step f (st, acc) a).2)
    simp only [process_bulk_extraction] at h
    cases hfa : f a with
    | error e =>
      simp only [bulk_step, hfa] at h ⊢
      simp only [doc_ok_id, doc_error_line, doc_ok_att, hfa]
      simp only [h.1, h.2.1, h.2.2.1, h.2.2.2.1, h.2.2.2.2.1,
        h.2.2.2.2.2.1, h.2.2.2.2.2.2.1, h.2.2.2.2.2.2.2.1,
        h.2.2.2.2.2.2.2.2.1, h.2.2.2.2.2.2.2.2.2.1, h.2.2.2.2.2.2.2.2.2.2]
      simp [List.length_cons]
      omega
    | ok i =>
      simp only [bulk_step, hfa] at h ⊢
      simp only [doc_ok_id, doc_error_line, doc_ok_att, hfa]
      simp only [h.1, h.2.1, h.2.2.1, h.2.2.2.1, h.2.2.2.2.1,
        h.2.2.2.2.2.1, h.2.2.2.2.2.2.1, h.2.2.2.2.2.2.2.1,
        h.2.2.2.2.2.2.2.2.1, h.2.2.2.2.2.2.2.2.2.1, h.2.2.2.2.2.2.2.2.2.2]
      simp [List.length_cons]
      omega

/-- Each attachment contributes to exactly one of the two filterMaps. -/
theorem doc_counts_split (f : Attachment → Except String Nat)
    (atts : List Attachment) :
    (atts.filterMap (doc_ok_id f)).length
      + (atts.filterMap (doc_error_line f)).length = atts.length := by
  induction atts with
  | nil => simp
  | cons a l ih =>
    cases hfa : f a <;>
      simp [List.filterMap_cons, doc_ok_id, doc_error_line, hfa, ← ih] <;> omega

/-- Inverting a successful `action_process_cvs`: the produced to-process
list is the set difference, and the written state is the counter reset
of hr_job.py lines 332-340. -/
theorem action_process_cvs_ok (job st0 : JobState) (tp : List Attachment)
    (h : action_process_cvs job = .ok (st0, tp)) :
    tp = job.cv_attachment_ids.filter
        (fun a => a.id ∉ job.processed_cv_attachment_ids) ∧
    st0 = { job with
            processed_cv_attachment_ids := [],
            processed_cv_count := 0,
            failed_cv_count := 0,
            total_cv_count := tp.length,
            bulk_processing_complete := false,
            bulk_processing_failed := false } ∧
    job.bulk_processing_in_progress = false ∧
    job.cv_attachment_ids ≠ [] ∧ tp ≠ [] := by
  unfold action_process_cvs at h
  split at h
  · exact absurd h (by simp)
  · split at h
    · exact absurd h (by simp)
    · simp only [] at h
      split at h
      · exact absurd h (by simp)
      · rename_i hprog hatt hne
        simp only [Except.ok.injEq, Prod.mk.injEq] at h
        obtain ⟨hst, htp⟩ := h
        subst htp
        refine ⟨rfl, hst.symm, ?_, hatt, hne⟩
        simpa using hprog

/-- Claim C1: for every bulk CV batch run, at every point during the
run processed_cv_count + failed_cv_count ≤ total_cv_count holds,
total_cv_count stays fixed at the size of the to-process set for the
whole run, and at run completion
processed_cv_count + failed_cv_count = total_cv_count. -/
theorem claim_C1 (f : Attachment → Except String Nat)
    (job st0 : JobState) (tp : List Attachment)
    (h : action_process_cvs job = .ok (st0, tp)) :
    st0.total_cv_count = tp.length ∧
    (∀ p q : List Attachment, tp = p ++ q →
      (process_bulk_extraction f p (st0, BulkAcc.empty)).1.processed_cv_count
        + (process_bulk_extraction f p (st0, BulkAcc.empty)).1.failed_cv_count
        ≤ (process_bulk_extraction f p (st0, BulkAcc.empty)).1.total_cv_count ∧
      (process_bulk_extraction f p (st0, BulkAcc.empty)).1.total_cv_count
        = tp.length) ∧
    (process_bulk_extraction f tp (st0, BulkAcc.empty)).1.processed_cv_count
      + (process_bulk_extraction f tp (st0, BulkAcc.empty)).1.failed_cv_count
      = (process_bulk_extraction f tp (st0, BulkAcc.empty)).1.total_cv_count := by
  obtain ⟨htp, hst, -, -, -⟩ := action_process_cvs_ok job st0 tp h
  have hp0 : st0.processed_cv_count = 0 := by rw [hst]
  have hf0 : st0.failed_cv_count = 0 := by rw [hst]
  have ht0 : st0.total_cv_count = tp.length := by rw [hst]
  have key : ∀ l : List Attachment,
      (process_bulk_extraction f l (st0, BulkAcc.empty)).1.processed_cv_count
        + (process_bulk_extraction f l (st0, BulkAcc.empty)).1.failed_cv_count
        = l.length ∧
      (process_bulk_extraction f l (st0, BulkAcc.empty)).1.total_cv_count
        = tp.length := by
    intro l
    have hc := bulk_run_characterization f l st0 BulkAcc.empty
    simp only [] at hc
    constructor
    · rw [hc.1, hc.2.1, hp0, hf0]
      have := doc_counts_split f l
      omega
    · rw [hc.2.2.1, ht0]
  refine ⟨ht0, ?_, ?_⟩
  · intro p q hpq
    refine ⟨?_, (key p).2⟩
    rw [(key p).1, (key p).2]
    have : p.length ≤ tp.length := by
      rw [hpq]; simp
    omega
  · rw [(key tp).1, (key tp).2]

/-- Witness for claim C1: a concrete two-document run (one success,
one failure) ends with processed + failed = total. -/
theorem claim_C1_witness :
    (process_bulk_extraction
        (fun a => if a.id = 1 then .ok 11 else .error "boom")
        [⟨1, "a.pdf", "AA"⟩, ⟨2, "b.pdf", "BB"⟩]
        (⟨[⟨1, "a.pdf", "AA"⟩, ⟨2, "b.pdf", "BB"⟩], [], 0, 0, 2,
          false, false, false⟩, BulkAcc.empty)).1.processed_cv_count
      + (process_bulk_extraction
        (fun a => if a.id = 1 then .ok 11 else .error "boom")
        [⟨1, "a.pdf", "AA"⟩, ⟨2, "b.pdf", "BB"⟩]
        (⟨[⟨1, "a.pdf", "AA"⟩, ⟨2, "b.pdf", "BB"⟩], [], 0, 0, 2,
          false, false, false⟩, BulkAcc.empty)).1.failed_cv_count
      = (process_bulk_extraction
        (fun a => if a.id = 1 then .ok 11 else .error "boom")
        [⟨1, "a.pdf", "AA"⟩, ⟨2, "b.pdf", "BB"⟩]
        (⟨[⟨1, "a.pdf", "AA"⟩, ⟨2, "b.pdf", "BB"⟩], [], 0, 0, 2,
          false, false, false⟩, BulkAcc.empty)).1.total_cv_count := by
  have h := claim_C1
    (fun a => if a.id = 1 then .ok 11 else .error "boom")
    ⟨[⟨1, "a.pdf", "AA"⟩, ⟨2, "b.pdf", "BB"⟩], [], 0, 0, 0,
      false, false, false⟩
    ⟨[⟨1, "a.pdf", "AA"⟩, ⟨2, "b.pdf", "BB"⟩], [], 0, 0, 2,
      false, false, false⟩
    [⟨1, "a.pdf", "AA"⟩, ⟨2, "b.pdf", "BB"⟩] rfl
  exact h.2.2

/-- Claim C2: a document whose processing raises is isolated — all its
partial writes are discarded (no processed counter, processed set,
or applicant-id change), failed_cv_count rises by exactly one, one
error message naming the document is appended, and the run continues
over every remaining document from that state. -/
theorem claim_C2 (f : Attachment → Except String Nat)
    (p q : List Attachment) (d : Attachment) (e : String)
    (hd : f d = .error e) (st : JobState) (acc : BulkAcc) :
    process_bulk_extraction f (p ++ d :: q) (st, acc)
      = process_bulk_extraction f q
          (bulk_step f (process_bulk_extraction f p (st, acc)) d) ∧
    (bulk_step f (process_bulk_extraction f p (st, acc)) d).1.failed_cv_count
      = (process_bulk_extraction f p (st, acc)).1.failed_cv_count + 1 ∧
    (bulk_step f (process_bulk_extraction f p (st, acc)) d).2.errors
      = (process_bulk_extraction f p (st, acc)).2.errors
          ++ [d.name ++ ": " ++ e] ∧
    (bulk_step f (process_bulk_extraction f p (st, acc)) d).1.processed_cv_count
      = (process_bulk_extraction f p (st, acc)).1.processed_cv_count ∧
    (bulk_step f (process_bulk_extraction f p (st, acc)) d).1.processed_cv_attachment_ids
      = (process_bulk_extraction f p (st, acc)).1.processed_cv_attachment_ids ∧
    (bulk_step f (process_bulk_extraction f p (st, acc)) d).2.successful_ids
      = (process_bulk_extraction f p (st, acc)).2.successful_ids := by
  refine ⟨?_, ?_⟩
  · simp [process_bulk_extraction, List.foldl_append]
  · simp [bulk_step, hd]

/-- Witness for claim C2, the spec's scenario: two documents, the
first succeeds and the second raises a service error; the final state
has total = 2, processed = 1, failed = 1 and one error message
referencing the second document's name. -/
theorem claim_C2_witness :
    (process_bulk_extraction
        (fun a => if a.id = 1 then .ok 11 else .error "Service error")
        [⟨1, "jane_cv.pdf", "AA"⟩, ⟨2, "mike_cv.pdf", "BB"⟩]
        (⟨[⟨1, "jane_cv.pdf", "AA"⟩, ⟨2, "mike_cv.pdf", "BB"⟩], [], 0, 0, 2,
          false, false, false⟩, BulkAcc.empty)).1.total_cv_count = 2 ∧
    (process_bulk_extraction
        (fun a => if a.id = 1 then .ok 11 else .error "Service error")
        [⟨1, "jane_cv.pdf", "AA"⟩, ⟨2, "mike_cv.pdf", "BB"⟩]
        (⟨[⟨1, "jane_cv.pdf", "AA"⟩, ⟨2, "mike_cv.pdf", "BB"⟩], [], 0, 0, 2,
          false, false, false⟩, BulkAcc.empty)).1.processed_cv_count = 1 ∧
    (process_bulk_extraction
        (fun a => if a.id = 1 then .ok 11 else .error "Service error")
        [⟨1, "jane_cv.pdf", "AA"⟩, ⟨2, "mike_cv.pdf", "BB"⟩]
        (⟨[⟨1, "jane_cv.pdf", "AA"⟩, ⟨2, "mike_cv.pdf", "BB"⟩], [], 0, 0, 2,
          false, false, false⟩, BulkAcc.empty)).1.failed_cv_count = 1 ∧
    (process_bulk_extraction
        (fun a => if a.id = 1 then .ok 11 else .error "Service error")
        [⟨1, "jane_cv.pdf", "AA"⟩, ⟨2, "mike_cv.pdf", "BB"⟩]
        (⟨[⟨1, "jane_cv.pdf", "AA"⟩, ⟨2, "mike_cv.pdf", "BB"⟩], [], 0, 0, 2,
          false, false, false⟩, BulkAcc.empty)).2.errors
      = ["mike_cv.pdf: Service error"] := by
  have h := claim_C2
    (fun a => if a.id = 1 then .ok 11 else .error "Service error")
    [⟨1, "jane_cv.pdf", "AA"⟩] [] ⟨2, "mike_cv.pdf", "BB"⟩ "Service error"
    rfl
    ⟨[⟨1, "jane_cv.pdf", "AA"⟩, ⟨2, "mike_cv.pdf", "BB"⟩], [], 0, 0, 2,
      false, false, false⟩ BulkAcc.empty
  refine ⟨rfl, rfl, ?_, ?_⟩
  · exact h.2.1
  · exact h.2.2.1

/-- With a broken configuration, every nonempty document's extraction
transaction raises exactly the configuration error. -/
theorem extract_one_config_error (company : Company) (e : String)
    (hcfg : openai_get_client company = .error e)
    (service : Attachment → Except String String)
    (persist : Attachment → String → Except String Nat)
    (a : Attachment) (ha : a.datas ≠ "") :
    extract_one company service persist a = .error e := by
  simp [extract_one, openai_call, ha, hcfg]

/-- Claim C4 counterexample: with an unset API key, a one-document
bulk run does not abort before any document is attempted.  The
document is attempted, fails with the configuration error, and the
per-document failure counter is incremented to 1 — the claim requires
it to stay 0 and the run to abort up front. -/
theorem claim_C4_counterexample :
    (process_bulk_extraction
        (extract_one ⟨none, none⟩ (fun _ => .ok "data") (fun _ _ => .ok 7))
        [⟨1, "cv1.pdf", "QQ=="⟩]
        (⟨[⟨1, "cv1.pdf", "QQ=="⟩], [], 0, 0, 1, false, false, false⟩,
          BulkAcc.empty)).1.failed_cv_count = 1 ∧
    (process_bulk_extraction
        (extract_one ⟨none, none⟩ (fun _ => .ok "data") (fun _ _ => .ok 7))
        [⟨1, "cv1.pdf", "QQ=="⟩]
        (⟨[⟨1, "cv1.pdf", "QQ=="⟩], [], 0, 0, 1, false, false, false⟩,
          BulkAcc.empty)).2.errors
      = ["cv1.pdf: OpenAI API Key is not set in HR Settings (or is invalid after stripping whitespace)."] :=
  ⟨rfl, rfl⟩

/-- Claim C4 (amended): a configuration error (missing API credential,
or model identifier that is empty after stripping whitespace) is
raised inside each document's own extraction transaction, not as a
pre-flight abort: every document of the run is attempted and fails
with the configuration error, failed_cv_count grows by the size of the
run, no applicant is created, and no attachment is marked processed. -/
theorem claim_C4 (company : Company) (e : String)
    (hcfg : openai_get_client company = .error e)
    (service : Attachment → Except String String)
    (persist : Attachment → String → Except String Nat)
    (atts : List Attachment) (hne : ∀ a ∈ atts, a.datas ≠ "")
    (st : JobState) (acc : BulkAcc) :
    (process_bulk_extraction (extract_one company service persist) atts
        (st, acc)).1.failed_cv_count = st.failed_cv_count + atts.length ∧
    (process_bulk_extraction (extract_one company service persist) atts
        (st, acc)).1.processed_cv_count = st.processed_cv_count ∧
    (process_bulk_extraction (extract_one company service persist) atts
        (st, acc)).2.successful_ids = acc.successful_ids ∧
    (process_bulk_extraction (extract_one company service persist) atts
        (st, acc)).1.processed_cv_attachment_ids
      = st.processed_cv_attachment_ids ∧
    (process_bulk_extraction (extract_one company service persist) atts
        (st, acc)).2.errors
      = acc.errors ++ atts.map (fun a => a.name ++ ": " ++ e) := by
  have hmaps : ∀ l : List Attachment, (∀ a ∈ l, a.datas ≠ "") →
      l.filterMap (doc_error_line (extract_one company service persist))
        = l.map (fun a => a.name ++ ": " ++ e) ∧
      l.filterMap (doc_ok_id (extract_one company service persist)) = [] ∧
      l.filterMap (doc_ok_att (extract_one company service persist)) = [] := by
    intro l hl
    induction l with
    | nil => simp
    | cons a t ih =>
      have ha := extract_one_config_error company e hcfg service persist a
        (hl a (by simp))
      have iht := ih (fun b hb => hl b (by simp [hb]))
      simp [List.filterMap_cons, doc_error_line, doc_ok_id, doc_ok_att, ha,
        iht.1, iht.2.1, iht.2.2]
  have hc := bulk_run_characterization
    (extract_one company service persist) atts st acc
  simp only [] at hc
  have hm := hmaps atts hne
  refine ⟨?_, ?_, ?_, ?_, ?_⟩
  · rw [hc.2.1, hm.1]; simp
  · rw [hc.1, hm.2.1]; simp
  · rw [hc.2.2.2.2.2.2.2.2.1, hm.2.1]; simp
  · rw [hc.2.2.2.2.1, hm.2.2]; simp
  · rw [hc.2.2.2.2.2.2.2.2.2.1, hm.1]

/-- Witness for claim C4: a concrete two-document run with an unset
API key fails both documents and creates no applicant. -/
theorem claim_C4_witness :
    (process_bulk_extraction
        (extract_one ⟨none, some "gpt-4o"⟩ (fun _ => .ok "d") (fun _ _ => .ok 9))
        [⟨1, "x.pdf", "AA"⟩, ⟨2, "y.pdf", "BB"⟩]
        (⟨[⟨1, "x.pdf", "AA"⟩, ⟨2, "y.pdf", "BB"⟩], [], 0, 0, 2,
          false, false, false⟩, BulkAcc.empty)).1.failed_cv_count = 0 + 2 ∧
    (process_bulk_extraction
        (extract_one ⟨none, some "gpt-4o"⟩ (fun _ => .ok "d") (fun _ _ => .ok 9))
        [⟨1, "x.pdf", "AA"⟩, ⟨2, "y.pdf", "BB"⟩]
        (⟨[⟨1, "x.pdf", "AA"⟩, ⟨2, "y.pdf", "BB"⟩], [], 0, 0, 2,
          false, false, false⟩, BulkAcc.empty)).1.processed_cv_count = 0 ∧
    (process_bulk_extraction
        (extract_one ⟨none, some "gpt-4o"⟩ (fun _ => .ok "d") (fun _ _ => .ok 9))
        [⟨1, "x.pdf", "AA"⟩, ⟨2, "y.pdf", "BB"⟩]
        (⟨[⟨1, "x.pdf", "AA"⟩, ⟨2, "y.pdf", "BB"⟩], [], 0, 0, 2,
          false, false, false⟩, BulkAcc.empty)).2.successful_ids = [] := by
  have h := claim_C4 ⟨none, some "gpt-4o"⟩
    "OpenAI API Key is not set in HR Settings (or is invalid after stripping whitespace)."
    rfl (fun _ => .ok "d") (fun _ _ => .ok 9)
    [⟨1, "x.pdf", "AA"⟩, ⟨2, "y.pdf", "BB"⟩]
    (by intro a ha; fin_cases ha <;> simp)
    ⟨[⟨1, "x.pdf", "AA"⟩, ⟨2, "y.pdf", "BB"⟩], [], 0, 0, 2,
      false, false, false⟩ BulkAcc.empty
  exact ⟨h.1, h.2.1, h.2.2.1⟩

/-- In an all-successful run every attachment is recorded as processed
and no error is recorded. -/
theorem all_ok_filterMaps (f : Attachment → Except String Nat)
    (l : List Attachment) (hok : ∀ a ∈ l, ∃ i, f a = .ok i) :
    l.filterMap (doc_ok_att f) = l.map (fun a => a.id) ∧
    l.filterMap (doc_error_line f) = [] := by
  induction l with
  | nil => simp
  | cons a t ih =>
    obtain ⟨i, hi⟩ := hok a (by simp)
    have iht := ih (fun b hb => hok b (by simp [hb]))
    simp [List.filterMap_cons, doc_ok_att, doc_error_line, hi,
      iht.1, iht.2]

/-- Claim C5: a bulk run starts on exactly the set difference
cv_attachment_ids minus processed_cv_attachment_ids; after a run in
which every document of the whole attachment set succeeded, the
processed set equals the attachment set and a re-run refuses with the
zero-new-work message, processing nothing. -/
theorem claim_C5 (job st0 : JobState) (tp : List Attachment)
    (h : action_process_cvs job = .ok (st0, tp))
    (f : Attachment → Except String Nat)
    (hok : ∀ a ∈ tp, ∃ i, f a = .ok i) :
    tp = job.cv_attachment_ids.filter
        (fun a => a.id ∉ job.processed_cv_attachment_ids) ∧
    (process_bulk_extraction f tp (st0, BulkAcc.empty)).1.processed_cv_attachment_ids
      = tp.map (fun a => a.id) ∧
    ((∀ a ∈ job.cv_attachment_ids, a.id ∈ tp.map (fun a => a.id)) →
      action_process_cvs
        (finalize_bulk_run
          (process_bulk_extraction f tp (st0, BulkAcc.empty)).1
          (process_bulk_extraction f tp (st0, BulkAcc.empty)).2.fail_count)
        = .error "All attached CVs have already been processed successfully. Please delete the attached files to start a new batch.") := by
  obtain ⟨htp, hst, -, hcv, -⟩ := action_process_cvs_ok job st0 tp h
  have hc := bulk_run_characterization f tp st0 BulkAcc.empty
  simp only [] at hc
  have hm := all_ok_filterMaps f tp hok
  have hproc :
      (process_bulk_extraction f tp (st0, BulkAcc.empty)).1.processed_cv_attachment_ids
        = tp.map (fun a => a.id) := by
    rw [hc.2.2.2.2.1, hm.1, hst]
    simp
  refine ⟨htp, hproc, ?_⟩
  intro hall
  have hcvkeep :
      (process_bulk_extraction f tp (st0, BulkAcc.empty)).1.cv_attachment_ids
        = job.cv_attachment_ids := by
    rw [hc.2.2.2.1, hst]
  unfold action_process_cvs
  simp only [finalize_bulk_run, hcvkeep, hproc]
  rw [if_neg (by simp), if_neg (by simpa using hcv)]
  rw [if_pos]
  simp only [List.filter_eq_nil_iff]
  intro a ha
  simp only [decide_not, Bool.not_eq_true', decide_eq_false_iff_not,
    Decidable.not_not]
  exact hall a ha

/-- Witness for claim C5: a two-attachment job with nothing processed
yet; the run covers both attachments, succeeds, and the re-run refuses
with the zero-new-work message. -/
theorem claim_C5_witness :
    action_process_cvs
        (finalize_bulk_run
          (process_bulk_extraction (fun a => .ok (100 + a.id))
            [⟨1, "a.pdf", "AA"⟩, ⟨2, "b.pdf", "BB"⟩]
            (⟨[⟨1, "a.pdf", "AA"⟩, ⟨2, "b.pdf", "BB"⟩], [], 0, 0, 2,
              false, false, false⟩, BulkAcc.empty)).1
          (process_bulk_extraction (fun a => .ok (100 + a.id))
            [⟨1, "a.pdf", "AA"⟩, ⟨2, "b.pdf", "BB"⟩]
            (⟨[⟨1, "a.pdf", "AA"⟩, ⟨2, "b.pdf", "BB"⟩], [], 0, 0, 2,
              false, false, false⟩, BulkAcc.empty)).2.fail_count)
      = .error "All attached CVs have already been processed successfully. Please delete the attached files to start a new batch." := by
  have h := claim_C5
    ⟨[⟨1, "a.pdf", "AA"⟩, ⟨2, "b.pdf", "BB"⟩], [], 0, 0, 0,
      false, false, false⟩
    ⟨[⟨1, "a.pdf", "AA"⟩, ⟨2, "b.pdf", "BB"⟩], [], 0, 0, 2,
      false, false, false⟩
    [⟨1, "a.pdf", "AA"⟩, ⟨2, "b.pdf", "BB"⟩] rfl
    (fun a => .ok (100 + a.id)) (fun a _ => ⟨100 + a.id, rfl⟩)
  exact h.2.2 (by intro a ha; fin_cases ha <;> simp)

/-! ## Applicant extraction data model (`hr_applicant.py`) -/

/-- Case-insensitive string comparison, the model of the Odoo search
operator `=ilike` on the wildcard-free names used here. -/
def strEqCI (a b : String) : Bool :=
  a.data.map Char.toLower == b.data.map Char.toLower

/-- Python truthiness of a string field read with `.get`: `None` and
the empty string are falsy. -/
def truthy : Option String → Bool
  | none => false
  | some s => s ≠ ""

/-- An `hr.recruitment.degree` record. -/
structure Degree where
  id : Nat
  name : String
deriving Repr, DecidableEq

/-- The simple applicant fields `_write_extracted_data` touches.  The
display `name` is a plain string where the empty string stands for an
unset (falsy) value. -/
structure ApplicantRec where
  name : String
  partner_name : Option String
  email_from : Option String
  partner_phone : Option String
  linkedin_profile : Option String
  type_id : Option Nat
deriving Repr, DecidableEq

/-- One entry of the extracted "skills" list. -/
structure SkillItem where
  type_name : Option String
  skill : Option String
  level : Option String
deriving Repr, DecidableEq

/-- The normalized extraction result (the parsed JSON object): the
five simple fields, each possibly missing or null (`none`) or present
(`some`), and the skills list.  A missing key and an explicit null are
indistinguishable to the source, which only ever reads the fields with
`.get(...)`. -/
structure CVData where
  name : Option String
  email : Option String
  phone : Option String
  linkedin : Option String
  degree : Option String
  skills : List SkillItem
deriving Repr, DecidableEq

/-- The `hr.recruitment.degree` table plus the id the next created
record would get. -/
structure DegreeDB where
  degrees : List Degree
  next_degree_id : Nat
deriving Repr, DecidableEq

/-- Characters allowed inside the URL captured by the regex
of `_write_extracted_data`: anything but whitespace, a closing
parenthesis or a closing square bracket. -/
def url_class_char (c : Char) : Bool :=
  !(isPySpace c || c = ')' || c = ']')

/-- The search for a URL in the linkedin field
(hr_applicant.py line 472): the first occurrence of a literal
"https://" followed by at least one allowed character, extended
greedily. -/
def find_https_url (cs : List Char) : Option String :=
  match cs with
  | [] => none
  | _ :: t =>
    if cs.take 8 = "https://".data then
      let run := (cs.drop 8).takeWhile url_class_char
      if run = [] then find_https_url t
      else some ⟨"https://".data ++ run⟩
    else find_https_url t

/-- Does the applicant display name end with the default
"⟨name⟩'s Application" marker? -/
def ends_with_application (s : String) : Bool :=
  s.data.reverse.take "\x27s Application".data.length
    == "\x27s Application".data.reverse

/-- The `name` entries of `write_vals` (hr_applicant.py lines
456-461): set partner_name, and the display name when it is unset or
still the default "⟨x⟩'s Application" form. -/
def wed_step_name (data : CVData) (app : ApplicantRec) : ApplicantRec :=
  if truthy data.name then
    let nm := data.name.getD ""
    { app with
        partner_name := some nm,
        name :=
          if app.name = "" || ends_with_application app.name then
            nm ++ "\x27s Application"
          else app.name }
  else app

/-- The `email_from` entry of `write_vals` (hr_applicant.py
lines 463-464). -/
def wed_step_email (data : CVData) (app : ApplicantRec) : ApplicantRec :=
  if truthy data.email then
    { app with email_from := some (data.email.getD "") }
  else app

/-- The `partner_phone` entry of `write_vals` (hr_applicant.py
lines 466-467). -/
def wed_step_phone (data : CVData) (app : ApplicantRec) : ApplicantRec :=
  if truthy data.phone then
    { app with partner_phone := some (data.phone.getD "") }
  else app

/-- The `linkedin_profile` entry of `write_vals` (hr_applicant.py
lines 469-477): extract the URL out of possibly markdown-wrapped
text, falling back to the raw value. -/
def wed_step_linkedin (data : CVData) (app : ApplicantRec) : ApplicantRec :=
  if truthy data.linkedin then
    let url := data.linkedin.getD ""
    match find_https_url url.data with
    | some m => { app with linkedin_profile := some m }
    | none => { app with linkedin_profile := some url }
  else app

/-- The `type_id` entry of `write_vals` (hr_applicant.py lines
479-496): resolve the degree case-insensitively, creating it on miss
(the create-failure `except: pass` path is a database error outside
the model). -/
def wed_step_degree (data : CVData) (db : DegreeDB)
    (app : ApplicantRec) : ApplicantRec × DegreeDB :=
  if truthy data.degree then
    let degree_name := data.degree.getD ""
    match db.degrees.find? (fun d => strEqCI d.name degree_name) with
    | some d => ({ app with type_id := some d.id }, db)
    | none =>
      ({ app with type_id := some db.next_degree_id },
       ⟨db.degrees ++ [⟨db.next_degree_id, degree_name⟩],
        db.next_degree_id + 1⟩)
  else (app, db)

/-- `HrApplicant._write_extracted_data` (hr_applicant.py lines
444-506): build `write_vals` from the truthy extracted fields and
apply them.  The sequential per-field steps commute with the single
`write` of the source because they touch disjoint fields. -/
def write_extracted_data (app : ApplicantRec) (db : DegreeDB)
    (data : CVData) : ApplicantRec × DegreeDB :=
  if data = ⟨none, none, none, none, none, []⟩ then
    -- `if not data: return` — the empty parse result writes nothing
    (app, db)
  else
    wed_step_degree data db
      (wed_step_linkedin data
        (wed_step_phone data
          (wed_step_email data
            (wed_step_name data app))))

/-- The name step writes at most partner_name and the display name,
keeping them when the extracted name is falsy. -/
theorem wed_step_name_eq (data : CVData) (app : ApplicantRec) :
    ∃ pn nm, wed_step_name data app
        = { app with partner_name := pn, name := nm }
      ∧ (truthy data.name = false → pn = app.partner_name ∧ nm = app.name) := by
  unfold wed_step_name
  split
  · rename_i ht
    exact ⟨_, _, rfl, fun hf => absurd ht (by simp [hf])⟩
  · exact ⟨app.partner_name, app.name, rfl, fun _ => ⟨rfl, rfl⟩⟩

/-- The email step writes at most email_from. -/
theorem wed_step_email_eq (data : CVData) (app : ApplicantRec) :
    ∃ em, wed_step_email data app = { app with email_from := em }
      ∧ (truthy data.email = false → em = app.email_from) := by
  unfold wed_step_email
  split
  · rename_i ht
    exact ⟨_, rfl, fun hf => absurd ht (by simp [hf])⟩
  · exact ⟨app.email_from, rfl, fun _ => rfl⟩

/-- The phone step writes at most partner_phone. -/
theorem wed_step_phone_eq (data : CVData) (app : ApplicantRec) :
    ∃ ph, wed_step_phone data app = { app with partner_phone := ph }
      ∧ (truthy data.phone = false → ph = app.partner_phone) := by
  unfold wed_step_phone
  split
  · rename_i ht
    exact ⟨_, rfl, fun hf => absurd ht (by simp [hf])⟩
  · exact ⟨app.partner_phone, rfl, fun _ => rfl⟩

/-- The linkedin step writes at most linkedin_profile. -/
theorem wed_step_linkedin_eq (data : CVData) (app : ApplicantRec) :
    ∃ lk, wed_step_linkedin data app = { app with linkedin_profile := lk }
      ∧ (truthy data.linkedin = false → lk = app.linkedin_profile) := by
  unfold wed_step_linkedin
  split
  · rename_i ht
    simp only []
    split
    · exact ⟨_, rfl, fun hf => absurd ht (by simp [hf])⟩
    · exact ⟨_, rfl, fun hf => absurd ht (by simp [hf])⟩
  · exact ⟨app.linkedin_profile, rfl, fun _ => rfl⟩

/-- The degree step writes at most type_id and the degree table. -/
theorem wed_step_degree_eq (data : CVData) (db : DegreeDB)
    (app : ApplicantRec) :
    ∃ ti db2, wed_step_degree data db app = ({ app with type_id := ti }, db2)
      ∧ (truthy data.degree = false → ti = app.type_id ∧ db2 = db) := by
  unfold wed_step_degree
  split
  · rename_i ht
    simp only []
    split
    · exact ⟨_, _, rfl, fun hf => absurd ht (by simp [hf])⟩
    · exact ⟨_, _, rfl, fun hf => absurd ht (by simp [hf])⟩
  · exact ⟨app.type_id, db, rfl, fun _ => ⟨rfl, rfl⟩⟩

/-- `HrApplicant._process_extracted_cv_data` (hr_applicant.py lines
398-442): two independently committed savepoint steps.  Step 1 is the
simple-field write (pure in the model, so its raise-branch is
unreachable); `process_skills_sp` stands for the step-2 savepoint body
`_process_skills` acting on an abstract skills database `σ`, whose
failure modes are the re-raised per-item exceptions.  On a step-2
failure the savepoint rolls the skills database back and the status
message is downgraded to the partial-success text; the call still
returns normally. -/
def process_extracted_cv_data {σ : Type}
    (skills_installed : Bool)
    (process_skills_sp : List SkillItem → σ → Except String σ)
    (app : ApplicantRec) (db : DegreeDB) (skills_db : σ) (data : CVData) :
    Except String (ApplicantRec × DegreeDB × σ × String) :=
  let step1 := write_extracted_data app db data
  let skills_list := if data.skills ≠ [] && skills_installed then data.skills else []
  if skills_list = [] then
    .ok (step1.1, step1.2, skills_db, "Successfully extracted data.")
  else
    match process_skills_sp skills_list skills_db with
    | .ok skills_db2 =>
      .ok (step1.1, step1.2, skills_db2, "Successfully extracted data.")
    | .error e =>
      .ok (step1.1, step1.2, skills_db,
        "Successfully saved simple data, but failed to process skills: " ++ e)

/-! ## Match statement scoring
(`hr_applicant_match_statement.py`) -/

/-- The score dictionary of `_compute_match_score`
(hr_applicant_match_statement.py lines 68-74).  The Python floats
0.0 / 25.0 / 50.0 / 80.0 / 100.0 are whole numbers, represented
exactly as rationals. -/
def score_map_default : List (String × ℚ) :=
  [("not_fit", 0), ("poor_fit", 25), ("fit", 50),
   ("good_fit", 80), ("excellent_fit", 100)]

/-- `HrApplicantMatchStatement._compute_match_score`
(hr_applicant_match_statement.py lines 65-76): dictionary lookup on
the `match_fit` selection value with default 0. -/
def compute_match_score (match_fit : String) : ℚ :=
  ((score_map_default.find? (fun kv => kv.1 = match_fit)).map
    (fun kv => kv.2)).getD 0

/-- Claim C9: the derived numeric score of a match statement is
determined by its fit category via the fixed mapping not_fit 0,
poor_fit 25, fit 50, good_fit 80, excellent_fit 100. -/
theorem claim_C9 :
    compute_match_score "not_fit" = 0 ∧
    compute_match_score "poor_fit" = 25 ∧
    compute_match_score "fit" = 50 ∧
    compute_match_score "good_fit" = 80 ∧
    compute_match_score "excellent_fit" = 100 := by
  refine ⟨?_, ?_, ?_, ?_, ?_⟩ <;> rfl

/-- Claim C10: `_write_extracted_data` only overwrites applicant
fields whose extracted value is present and non-empty; a missing or
null extracted field leaves the corresponding stored field unchanged,
and an empty extraction result changes no field at all. -/
theorem claim_C10 (app : ApplicantRec) (db : DegreeDB) (data : CVData) :
    (truthy data.name = false →
      (write_extracted_data app db data).1.partner_name = app.partner_name ∧
      (write_extracted_data app db data).1.name = app.name) ∧
    (truthy data.email = false →
      (write_extracted_data app db data).1.email_from = app.email_from) ∧
    (truthy data.phone = false →
      (write_extracted_data app db data).1.partner_phone = app.partner_phone) ∧
    (truthy data.linkedin = false →
      (write_extracted_data app db data).1.linkedin_profile
        = app.linkedin_profile) ∧
    (truthy data.degree = false →
      (write_extracted_data app db data).1.type_id = app.type_id ∧
      (write_extracted_data app db data).2 = db) ∧
    (truthy data.name = false ∧ truthy data.email = false ∧
     truthy data.phone = false ∧ truthy data.linkedin = false ∧
     truthy data.degree = false →
      (write_extracted_data app db data).1 = app ∧
      (write_extracted_data app db data).2 = db) := by
  by_cases hempty : data = (⟨none, none, none, none, none, []⟩ : CVData)
  · subst hempty
    simp [write_extracted_data]
  · have hw : write_extracted_data app db data
        = wed_step_degree data db (wed_step_linkedin data (wed_step_phone data
            (wed_step_email data (wed_step_name data app)))) := by
      rw [write_extracted_data, if_neg hempty]
    obtain ⟨pn, nm, e1, s1⟩ := wed_step_name_eq data app
    obtain ⟨em, e2, s2⟩ := wed_step_email_eq data (wed_step_name data app)
    obtain ⟨ph, e3, s3⟩ :=
      wed_step_phone_eq data (wed_step_email data (wed_step_name data app))
    obtain ⟨lk, e4, s4⟩ := wed_step_linkedin_eq data
      (wed_step_phone data (wed_step_email data (wed_step_name data app)))
    obtain ⟨ti, db2, e5, s5⟩ := wed_step_degree_eq data db
      (wed_step_linkedin data (wed_step_phone data
        (wed_step_email data (wed_step_name data app))))
    rw [hw, e5, e4, e3, e2, e1]
    rw [e4, e3, e2, e1] at s5
    rw [e3, e2, e1] at s4
    rw [e2, e1] at s3
    rw [e1] at s2
    refine ⟨?_, ?_, ?_, ?_, ?_, ?_⟩ <;> intro h
    · obtain ⟨hpn, hnm⟩ := s1 h
      simp [hpn, hnm]
    · simp [s2 h]
    · simp [s3 h]
    · simp [s4 h]
    · obtain ⟨hti, hdb⟩ := s5 h
      simp [hti, hdb]
    · obtain ⟨h1, h2, h3, h4, h5⟩ := h
      obtain ⟨hpn, hnm⟩ := s1 h1
      obtain ⟨hti, hdb⟩ := s5 h5
      simp [hpn, hnm, s2 h2, s3 h3, s4 h4, hti, hdb]

/-- Claim C6: when the skill-processing step fails after the
simple-field step, the applicant keeps all the step-1 data, the skills
database is rolled back unchanged, the returned status message is the
partial-success text, and the call returns normally instead of
raising. -/
theorem claim_C6 {σ : Type} (sp : List SkillItem → σ → Except String σ)
    (app : ApplicantRec) (db : DegreeDB) (skills_db : σ) (data : CVData)
    (e : String)
    (hskills : data.skills ≠ [])
    (hfail : sp data.skills skills_db = .error e) :
    process_extracted_cv_data true sp app db skills_db data
      = .ok ((write_extracted_data app db data).1,
             (write_extracted_data app db data).2,
             skills_db,
             "Successfully saved simple data, but failed to process skills: "
               ++ e) := by
  simp [process_extracted_cv_data, hskills, hfail]

/-- Witness for claim C6: a concrete extraction with one skill whose
processing step fails; the simple name data sticks and the message is
the partial-success one. -/
theorem claim_C6_witness :
    process_extracted_cv_data true (fun _ (_ : Nat) => .error "boom")
        ⟨"", none, none, none, none, none⟩ ⟨[], 1⟩ 0
        ⟨some "Jane", none, none, none, none,
          [⟨some "IT", some "Docker", some "Expert (100%)"⟩]⟩
      = .ok (⟨"Jane\x27s Application", some "Jane", none, none, none, none⟩,
             ⟨[], 1⟩, 0,
             "Successfully saved simple data, but failed to process skills: boom") := by
  have h := claim_C6 (fun _ (_ : Nat) => .error "boom")
    ⟨"", none, none, none, none, none⟩ ⟨[], 1⟩ 0
    ⟨some "Jane", none, none, none, none,
      [⟨some "IT", some "Docker", some "Expert (100%)"⟩]⟩
    "boom" (by simp) rfl
  rw [h]
  rfl

/-- Witness for claim C10: an extraction result with every field
missing leaves a fully populated applicant untouched. -/
theorem claim_C10_witness :
    (write_extracted_data
        ⟨"John", some "J", some "j@x.io", some "123", some "L", some 3⟩
        ⟨[], 1⟩ ⟨none, none, none, none, none, []⟩).1
      = ⟨"John", some "J", some "j@x.io", some "123", some "L", some 3⟩ := by
  have h := claim_C10
    ⟨"John", some "J", some "j@x.io", some "123", some "L", some 3⟩
    ⟨[], 1⟩ ⟨none, none, none, none, none, []⟩
  exact (h.2.2.2.2.2 ⟨rfl, rfl, rfl, rfl, rfl⟩).1

/-! ## Skill level resolution (`hr_applicant.py`,
`_process_skills` and `_get_or_create_default_skill_level`) -/

/-- An `hr.skill.level` record. -/
structure SkillLevel where
  id : Nat
  name : String
  level_progress : Nat
deriving Repr, DecidableEq

/-- The completion of the level-label pattern after a candidate name
group: greedy whitespace, an opening parenthesis, a nonempty greedy
digit run, then the literal percent sign and closing parenthesis
(anything may follow, since the source uses a prefix match). -/
def level_label_tail (rest : List Char) : Option Nat :=
  match rest.dropWhile isPySpace with
  | '(' :: r1 =>
    let ds := r1.takeWhile Char.isDigit
    if ds = [] then none
    else
      match r1.drop ds.length with
      | '%' :: ')' :: _ => some (ds.foldl (fun n c => n * 10 + (c.toNat - 48)) 0)
      | _ => none
  | _ => none

/-- Scanner for the anchored non-greedy name group: grow the name one
character at a time (never across a newline, which `.` cannot match)
and take the first length whose tail completes the pattern. -/
def level_label_scan (nameAcc : List Char) : List Char → Option (String × Nat)
  | [] => none
  | c :: rest =>
    if c = '\n' then none
    else
      match level_label_tail rest with
      | some p => some (⟨nameAcc ++ [c]⟩, p)
      | none => level_label_scan (nameAcc ++ [c]) rest

/-- The regex match of hr_applicant.py line 608, a prefix match of the
shape: name group (non-greedy, at least one character), optional
whitespace, an integer percentage in parentheses.  Returns the raw
name group and the percentage. -/
def parse_level_label (s : String) : Option (String × Nat) :=
  level_label_scan [] s.data

/-- The exact search of hr_applicant.py lines 612-615: first level
whose name matches case-insensitively and whose progress is the given
one. -/
def find_level_exact (levels : List SkillLevel) (nm : String) (p : Nat) :
    Option SkillLevel :=
  levels.find? (fun l => strEqCI l.name nm && l.level_progress == p)

/-- The name-only search of hr_applicant.py line 619. -/
def find_level_by_name (levels : List SkillLevel) (nm : String) :
    Option SkillLevel :=
  levels.find? (fun l => strEqCI l.name nm)

/-- The search of hr_applicant.py lines 531-535: positive-progress
levels ordered by ascending progress, limit 1 — the first record of
minimal positive progress. -/
def lowest_positive_level (levels : List SkillLevel) : Option SkillLevel :=
  (levels.filter (fun l => 0 < l.level_progress)).foldl
    (fun acc l =>
      match acc with
      | none => some l
      | some m => if l.level_progress < m.level_progress then some l else acc)
    none

/-- `HrApplicant._get_or_create_default_skill_level` (hr_applicant.py
lines 508-554): the four-step default chain — exact Beginner with
progress 15, else any level named Beginner, else the lowest level with
positive progress, else a newly created Beginner/15 level. -/
def get_or_create_default_skill_level (levels : List SkillLevel)
    (next_id : Nat) : SkillLevel × List SkillLevel :=
  match find_level_exact levels "Beginner" 15 with
  | some l => (l, levels)
  | none =>
    match find_level_by_name levels "Beginner" with
    | some l => (l, levels)
    | none =>
      match lowest_positive_level levels with
      | some l => (l, levels)
      | none => (⟨next_id, "Beginner", 15⟩, levels ++ [⟨next_id, "Beginner", 15⟩])

/-- The level-resolution block of `HrApplicant._process_skills`
(hr_applicant.py lines 601-635) for one label on a cache miss (the
per-run cache only short-circuits repeated identical labels to the
same result): parse the "name (progress%)" shape; on a parse match
search by exact (stripped name, progress), then by the full label
name, then create from the parsed parts; on a parse failure search by
the full label name only; when nothing resolved, fall back to the
default chain.  Returns the resolved level and the possibly extended
level table. -/
def resolve_skill_level (levels : List SkillLevel) (next_id : Nat)
    (label : Option String) : SkillLevel × List SkillLevel :=
  let found : Option (SkillLevel × List SkillLevel) :=
    if truthy label then
      let lbl := label.getD ""
      match parse_level_label lbl with
      | some (nameRaw, prog) =>
        let clean := pyStrip nameRaw
        (match find_level_exact levels clean prog with
         | some l => some (l, levels)
         | none =>
           match find_level_by_name levels lbl with
           | some l => some (l, levels)
           | none =>
             some (⟨next_id, clean, prog⟩, levels ++ [⟨next_id, clean, prog⟩]))
      | none =>
        match find_level_by_name levels lbl with
        | some l => some (l, levels)
        | none => none
    else none
  match found with
  | some r => r
  | none => get_or_create_default_skill_level levels next_id

/-- Claim C7 counterexample: the label "Advanced (80%)" matches the
pattern, but when the level table holds no (Advanced, 80) level and
does hold a level literally named "Advanced (80%)" with progress 33,
the code resolves that level by the name-only fallback — a level whose
name is not "Advanced" and whose progress is not 80, contradicting the
claim that a matched label always resolves or creates a level with
exactly the parsed name and progress. -/
theorem claim_C7_counterexample :
    parse_level_label "Advanced (80%)" = some ("Advanced", 80) ∧
    resolve_skill_level [⟨1, "Advanced (80%)", 33⟩] 2 (some "Advanced (80%)")
      = (⟨1, "Advanced (80%)", 33⟩, [⟨1, "Advanced (80%)", 33⟩]) ∧
    (⟨1, "Advanced (80%)", 33⟩ : SkillLevel).name ≠ "Advanced" ∧
    (⟨1, "Advanced (80%)", 33⟩ : SkillLevel).level_progress ≠ 80 := by
  refine ⟨rfl, rfl, ?_, ?_⟩ <;> decide

/-- Claim C7 (amended): a label matching the pattern
name (integer%) resolves by exact (stripped name, progress) match
first, then by a case-insensitive name-only match on the whole label,
and only when both miss creates a level with exactly the parsed name
and progress; a label that does not match the pattern resolves by a
name-only match, and when that misses falls back to the default level
found by the four-step chain: exact Beginner with progress 15, else
any level named Beginner, else the lowest level with positive
progress, else a newly created Beginner/15 level. -/
theorem claim_C7 (levels : List SkillLevel) (next_id : Nat) (lbl : String)
    (hlbl : lbl ≠ "") :
    (∀ nameRaw prog, parse_level_label lbl = some (nameRaw, prog) →
      (∀ l, find_level_exact levels (pyStrip nameRaw) prog = some l →
        resolve_skill_level levels next_id (some lbl) = (l, levels)) ∧
      (find_level_exact levels (pyStrip nameRaw) prog = none →
        (∀ l, find_level_by_name levels lbl = some l →
          resolve_skill_level levels next_id (some lbl) = (l, levels)) ∧
        (find_level_by_name levels lbl = none →
          resolve_skill_level levels next_id (some lbl)
            = (⟨next_id, pyStrip nameRaw, prog⟩,
               levels ++ [⟨next_id, pyStrip nameRaw, prog⟩])))) ∧
    (parse_level_label lbl = none →
      (∀ l, find_level_by_name levels lbl = some l →
        resolve_skill_level levels next_id (some lbl) = (l, levels)) ∧
      (find_level_by_name levels lbl = none →
        resolve_skill_level levels next_id (some lbl)
          = get_or_create_default_skill_level levels next_id)) ∧
    (∀ l, find_level_exact levels "Beginner" 15 = some l →
      get_or_create_default_skill_level levels next_id = (l, levels)) ∧
    (find_level_exact levels "Beginner" 15 = none →
      (∀ l, find_level_by_name levels "Beginner" = some l →
        get_or_create_default_skill_level levels next_id = (l, levels)) ∧
      (find_level_by_name levels "Beginner" = none →
        (∀ l, lowest_positive_level levels = some l →
          get_or_create_default_skill_level levels next_id = (l, levels)) ∧
        (lowest_positive_level levels = none →
          get_or_create_default_skill_level levels next_id
            = (⟨next_id, "Beginner", 15⟩,
               levels ++ [⟨next_id, "Beginner", 15⟩])))) := by
  have htr : truthy (some lbl) = true := by simp [truthy, hlbl]
  refine ⟨?_, ?_, ?_, ?_⟩
  · intro nameRaw prog hparse
    refine ⟨?_, ?_⟩
    · intro l hexact
      simp [resolve_skill_level, htr, hparse, hexact]
    · intro hexact
      refine ⟨?_, ?_⟩
      · intro l hname
        simp [resolve_skill_level, htr, hparse, hexact, hname]
      · intro hname
        simp [resolve_skill_level, htr, hparse, hexact, hname]
  · intro hparse
    refine ⟨?_, ?_⟩
    · intro l hname
      simp [resolve_skill_level, htr, hparse, hname]
    · intro hname
      simp [resolve_skill_level, htr, hparse, hname]
  · intro l hexact
    simp [get_or_create_default_skill_level, hexact]
  · intro hexact
    refine ⟨?_, ?_⟩
    · intro l hname
      simp [get_or_create_default_skill_level, hexact, hname]
    · intro hname
      refine ⟨?_, ?_⟩
      · intro l hlow
        simp [get_or_create_default_skill_level, hexact, hname, hlow]
      · intro hlow
        simp [get_or_create_default_skill_level, hexact, hname, hlow]

/-- Witness for claim C7, the spec's scenario: on a table holding only
the Beginner/15 level, "Advanced (80%)" creates a level named
Advanced with progress 80, and "Ninja" (no pattern match, no name
match) falls back to the default Beginner/15 level. -/
theorem claim_C7_witness :
    resolve_skill_level [⟨1, "Beginner", 15⟩] 2 (some "Advanced (80%)")
      = (⟨2, "Advanced", 80⟩, [⟨1, "Beginner", 15⟩, ⟨2, "Advanced", 80⟩]) ∧
    resolve_skill_level [⟨1, "Beginner", 15⟩] 2 (some "Ninja")
      = (⟨1, "Beginner", 15⟩, [⟨1, "Beginner", 15⟩]) := by
  have h1 := claim_C7 [⟨1, "Beginner", 15⟩] 2 "Advanced (80%)" (by decide)
  have h2 := claim_C7 [⟨1, "Beginner", 15⟩] 2 "Ninja" (by decide)
  constructor
  · exact ((h1.1 "Advanced" 80 rfl).2 rfl).2 rfl
  · have hdef := (h2.2.1 rfl).2 rfl
    rw [hdef]
    exact h2.2.2.1 ⟨1, "Beginner", 15⟩ rfl

/-! ## Job requirement extraction (`hr_job.py`,
`_process_jd_extract_data`) -/

/-- An `hr.job.requirement.tag` record. -/
structure ReqTag where
  id : Nat
  name : String
deriving Repr, DecidableEq

/-- An `hr.job.requirement` record as created by the extractor.  The
weight is a Python float from the service, carried as an exact
rational. -/
structure Requirement where
  name : String
  job_id : Nat
  weight : ℚ
  tag_ids : List Nat
  sequence : Nat
deriving Repr, DecidableEq

/-- One requirement dict from the service:
name, weight, tag_name. -/
structure ReqData where
  name : String
  weight : Option ℚ
  tag_name : Option String
deriving Repr, DecidableEq

/-- Python's `str.lower()` (ASCII part). -/
def lowerStr (s : String) : String := ⟨s.data.map Char.toLower⟩

/-- Lookup in the model of a Python dict. -/
def cacheGet (cache : List (String × Nat)) (k : String) : Option Nat :=
  (cache.find? (fun kv => kv.1 = k)).map (fun kv => kv.2)

/-- Python dict assignment, modelled as a shadowing prepend: lookups
see the most recent binding for a key, which is all the source ever
observes of the dict. -/
def cacheInsert (cache : List (String × Nat)) (k : String) (v : Nat) :
    List (String × Nat) :=
  (k, v) :: cache

/-- `list(set(...))` keeps one copy of each name; the set's iteration
order is arbitrary in Python, fixed here to first occurrence.  No
verified property depends on this order. -/
def dedupFirstAux (seen : List String) : List String → List String
  | [] => []
  | x :: t =>
    if x ∈ seen then dedupFirstAux seen t
    else x :: dedupFirstAux (x :: seen) t

def dedupFirst (l : List String) : List String := dedupFirstAux [] l

/-- The distinct truthy tag names of the input list (hr_job.py lines
943-945); the arbitrary `set` iteration order is fixed to first
occurrence, on which no verified property depends. -/
def jd_tag_names (data : List ReqData) : List String :=
  dedupFirst (data.filterMap
    (fun r => if truthy r.tag_name then r.tag_name else none))

/-- The cache seeded from existing tags (hr_job.py lines 948-949): a
case-sensitive `('name','in',tag_names)` search, cached under the
lowercased tag name. -/
def jd_existing_tag_cache (tags : List ReqTag) (data : List ReqData) :
    List (String × Nat) :=
  (tags.filter (fun t => t.name ∈ jd_tag_names data)).foldl
    (fun c t => cacheInsert c (lowerStr t.name) t.id) []

/-- The tags created for the names still missing from the seeded cache
(hr_job.py lines 951-960), with sequential fresh ids. -/
def jd_new_tags (tags : List ReqTag) (next_tag_id : Nat)
    (data : List ReqData) : List ReqTag :=
  (((jd_tag_names data).filter (fun nm =>
      (cacheGet (jd_existing_tag_cache tags data) (lowerStr nm)).isNone)).enum).map
    (fun p => (⟨next_tag_id + p.1, p.2⟩ : ReqTag))

/-- The completed in-run tag cache after creation (hr_job.py
lines 959-960). -/
def jd_tag_cache (tags : List ReqTag) (next_tag_id : Nat)
    (data : List ReqData) : List (String × Nat) :=
  (jd_new_tags tags next_tag_id data).foldl
    (fun c t => cacheInsert c (lowerStr t.name) t.id)
    (jd_existing_tag_cache tags data)

/-- One created requirement (hr_job.py lines 968-978): the dict name,
the current job, the weight with default 1.0, the cached tag when the
dict carries a truthy tag name, and sequence (seq+1)*10. -/
def jd_new_req (job_id : Nat) (cache : List (String × Nat))
    (p : Nat × ReqData) : Requirement :=
  { name := p.2.name,
    job_id := job_id,
    weight := p.2.weight.getD 1,
    tag_ids :=
      match (if truthy p.2.tag_name then
               cacheGet cache (lowerStr (p.2.tag_name.getD ""))
             else none) with
      | some t => [t]
      | none => [],
    sequence := (p.1 + 1) * 10 }

/-- `HrJob._process_jd_extract_data` (hr_job.py lines 929-985): fail
on an empty list; otherwise unlink the job existing requirement
statements, resolve the tag names and create one requirement per
input dict, in order.  Returns the new requirement table and tag
table. -/
def process_jd_extract_data (job_id : Nat) (all_reqs : List Requirement)
    (tags : List ReqTag) (next_tag_id : Nat)
    (requirements_data_list : List ReqData) :
    Except String (List Requirement × List ReqTag) :=
  if requirements_data_list = [] then
    .error "AI processing returned no requirements."
  else
    .ok (all_reqs.filter (fun r => r.job_id ≠ job_id)
           ++ (requirements_data_list.enum).map
                (jd_new_req job_id
                  (jd_tag_cache tags next_tag_id requirements_data_list)),
         tags ++ jd_new_tags tags next_tag_id requirements_data_list)

/-- A lookup after a dict assignment: the new binding for its key,
the old cache for any other key. -/
theorem cacheGet_cacheInsert (c : List (String × Nat)) (k1 : String)
    (v : Nat) (k : String) :
    cacheGet (cacheInsert c k1 v) k
      = if k = k1 then some v else cacheGet c k := by
  by_cases hk : k = k1
  · subst hk
    simp [cacheGet, cacheInsert, List.find?]
  · simp [cacheGet, cacheInsert, List.find?, Ne.symm hk, if_neg hk]

/-- Every value a tag-fold cache can return is either from the start
cache or the id of one of the folded tags. -/
theorem cacheGet_fold_tags (P : Nat → Prop) (ts : List ReqTag)
    (c0 : List (String × Nat))
    (h0 : ∀ k v, cacheGet c0 k = some v → P v)
    (hts : ∀ t ∈ ts, P t.id) :
    ∀ k v, cacheGet
        (ts.foldl (fun c t => cacheInsert c (lowerStr t.name) t.id) c0) k
      = some v → P v := by
  induction ts generalizing c0 with
  | nil => exact h0
  | cons t ts ih =>
    intro k v h
    refine ih (cacheInsert c0 (lowerStr t.name) t.id) ?_
      (fun u hu => hts u (by simp [hu])) k v h
    intro k' v' h'
    rw [cacheGet_cacheInsert] at h'
    split at h'
    · cases h'
      exact hts t (by simp)
    · exact h0 k' v' h'


/-- Every value the completed tag cache can return is the id of a tag
in the resulting tag table. -/
theorem jd_tag_cache_ids (tags : List ReqTag) (next_tag_id : Nat)
    (data : List ReqData) (k : String) (v : Nat)
    (h : cacheGet (jd_tag_cache tags next_tag_id data) k = some v) :
    ∃ t ∈ tags ++ jd_new_tags tags next_tag_id data, t.id = v := by
  revert h
  unfold jd_tag_cache
  refine cacheGet_fold_tags
    (fun v => ∃ t ∈ tags ++ jd_new_tags tags next_tag_id data, t.id = v)
    (jd_new_tags tags next_tag_id data)
    (jd_existing_tag_cache tags data) ?_ ?_ k v
  · unfold jd_existing_tag_cache
    refine cacheGet_fold_tags
      (fun v => ∃ t ∈ tags ++ jd_new_tags tags next_tag_id data, t.id = v)
      _ [] ?_ ?_
    · intro k v h
      simp [cacheGet] at h
    · intro t ht
      refine ⟨t, ?_, rfl⟩
      simp only [List.mem_append]
      exact Or.inl (List.mem_of_mem_filter ht)
  · intro t ht
    refine ⟨t, ?_, rfl⟩
    simp only [List.mem_append]
    exact Or.inr ht

/-- Claim C8 counterexample: with an existing tag "hard skill" and one
input item tagged "Hard Skill" — equal up to case — the code creates a
brand-new tag and links the requirement to it, instead of resolving
the existing tag case-insensitively as the claim states: the database
search of hr_job.py line 948 uses the case-sensitive `in` operator. -/
theorem claim_C8_counterexample :
    strEqCI "hard skill" "Hard Skill" = true ∧
    process_jd_extract_data 1 [] [⟨1, "hard skill"⟩] 2
        [⟨"Requirement X", some 1, some "Hard Skill"⟩]
      = .ok ([⟨"Requirement X", 1, 1, [2], 10⟩],
             [⟨1, "hard skill"⟩, ⟨2, "Hard Skill"⟩]) ∧
    ([2] : List Nat) ≠ [1] := by
  refine ⟨rfl, rfl, by decide⟩

/-- Claim C8 (amended): an empty requirement list fails the whole
operation; a non-empty list deletes all of the job's existing
requirement statements and creates exactly one statement per input
item, in input order, carrying the item's name and weight (default
1.0), with strictly increasing sequence (i+1)*10 and a tag only for
items with a truthy tag name; each linked tag id exists in the
resulting tag table.  Tag resolution goes through an in-run cache
keyed by lowercased name, but the search feeding it from pre-existing
tags is an exact case-sensitive name match, not a case-insensitive
one. -/
theorem claim_C8 (job_id : Nat) (all_reqs : List Requirement)
    (tags : List ReqTag) (next_tag_id : Nat) (data : List ReqData) :
    (data = [] →
      process_jd_extract_data job_id all_reqs tags next_tag_id data
        = .error "AI processing returned no requirements.") ∧
    (data ≠ [] →
      process_jd_extract_data job_id all_reqs tags next_tag_id data
        = .ok (all_reqs.filter (fun r => r.job_id ≠ job_id)
                 ++ (data.enum).map
                      (jd_new_req job_id (jd_tag_cache tags next_tag_id data)),
               tags ++ jd_new_tags tags next_tag_id data) ∧
      ((data.enum).map
        (jd_new_req job_id (jd_tag_cache tags next_tag_id data))).length
        = data.length ∧
      (∀ (i : Nat) (rd : ReqData), data[i]? = some rd →
        ((data.enum).map
          (jd_new_req job_id (jd_tag_cache tags next_tag_id data)))[i]?
          = some (jd_new_req job_id (jd_tag_cache tags next_tag_id data)
              (i, rd)) ∧
        (jd_new_req job_id (jd_tag_cache tags next_tag_id data) (i, rd)).name
          = rd.name ∧
        (jd_new_req job_id (jd_tag_cache tags next_tag_id data) (i, rd)).job_id
          = job_id ∧
        (jd_new_req job_id (jd_tag_cache tags next_tag_id data) (i, rd)).weight
          = rd.weight.getD 1 ∧
        (jd_new_req job_id (jd_tag_cache tags next_tag_id data)
            (i, rd)).sequence = (i + 1) * 10 ∧
        (truthy rd.tag_name = false →
          (jd_new_req job_id (jd_tag_cache tags next_tag_id data)
            (i, rd)).tag_ids = []) ∧
        (∀ tid ∈ (jd_new_req job_id (jd_tag_cache tags next_tag_id data)
            (i, rd)).tag_ids,
          ∃ t ∈ tags ++ jd_new_tags tags next_tag_id data, t.id = tid)) ∧
      (∀ (i j : Nat) (ri rj : Requirement),
        ((data.enum).map
          (jd_new_req job_id (jd_tag_cache tags next_tag_id data)))[i]?
            = some ri →
        ((data.enum).map
          (jd_new_req job_id (jd_tag_cache tags next_tag_id data)))[j]?
            = some rj →
        i < j → ri.sequence < rj.sequence)) := by
  constructor
  · intro h
    rw [process_jd_extract_data, if_pos h]
  · intro h
    refine ⟨by rw [process_jd_extract_data, if_neg h], by simp, ?_, ?_⟩
    · intro i rd hird
      refine ⟨?_, rfl, rfl, rfl, rfl, ?_, ?_⟩
      · simp [List.getElem?_map, List.getElem?_enum, hird]
      · intro hfalsy
        simp [jd_new_req, hfalsy]
      · intro tid htid
        unfold jd_new_req at htid
        by_cases htr : truthy rd.tag_name
        · simp only [htr, if_true] at htid
          cases hcg : cacheGet (jd_tag_cache tags next_tag_id data)
              (lowerStr (rd.tag_name.getD "")) with
          | none =>
            rw [hcg] at htid
            exact absurd htid (by simp)
          | some v =>
            rw [hcg] at htid
            simp only [List.mem_singleton] at htid
            subst htid
            exact jd_tag_cache_ids tags next_tag_id data _ tid hcg
        · simp only [Bool.not_eq_true] at htr
          simp only [htr, Bool.false_eq_true, if_false] at htid
          exact absurd htid (by simp)
    · intro i j ri rj hri hrj hij
      simp only [List.getElem?_map, List.getElem?_enum] at hri hrj
      rcases hdi : data[i]? with _ | di
      · rw [hdi] at hri
        simp at hri
      · rcases hdj : data[j]? with _ | dj
        · rw [hdj] at hrj
          simp at hrj
        · rw [hdi] at hri
          rw [hdj] at hrj
          simp only [Option.map_some', Option.some.injEq] at hri hrj
          have hsi : ri.sequence = (i + 1) * 10 := by
            rw [← hri]; rfl
          have hsj : rj.sequence = (j + 1) * 10 := by
            rw [← hrj]; rfl
          rw [hsi, hsj]
          omega

/-- Witness for claim C8: one concrete two-item run creates two
requirements in order with sequences 10 and 20, linking the first to
the pre-existing exactly-matching tag. -/
theorem claim_C8_witness :
    process_jd_extract_data 7 [⟨"Old", 7, 1, [], 10⟩, ⟨"Other", 8, 1, [], 10⟩]
        [⟨1, "Hard Skill"⟩] 2
        [⟨"Python", some 5, some "Hard Skill"⟩, ⟨"Teamwork", none, none⟩]
      = .ok ([⟨"Other", 8, 1, [], 10⟩,
              ⟨"Python", 7, 5, [1], 10⟩, ⟨"Teamwork", 7, 1, [], 20⟩],
             [⟨1, "Hard Skill"⟩]) := by
  have h := (claim_C8 7 [⟨"Old", 7, 1, [], 10⟩, ⟨"Other", 8, 1, [], 10⟩]
    [⟨1, "Hard Skill"⟩] 2
    [⟨"Python", some 5, some "Hard Skill"⟩, ⟨"Teamwork", none, none⟩]).2
    (by decide)
  rw [h.1]
  rfl

/-! ## Response normalization (`hr_applicant.py`,
`_parse_openai_response`; the Gemini module's `_parse_gemini_response`
is textually identical up to the vendor name in the messages) -/

/-- The whitespace the strict JSON parser skips. -/

def isJsonWs (c : Char) : Bool :=
  c = ' ' || c = '\t' || c = '\n' || c = '\r'

/-- A parsed JSON value.  The model of `json.loads` below covers the
JSON used by this system: objects, arrays, strings with the common
escapes, integers, booleans and null; floats and unicode escapes are
outside the model (no verified property depends on them). -/
inductive Json where
  | null
  | bool (b : Bool)
  | num (n : Int)
  | str (s : String)
  | arr (elems : List Json)
  | obj (fields : List (String × Json))
deriving Repr

/-- Body of a JSON string after the opening quote: returns the
decoded characters and the input after the closing quote. -/
def jsonStringBody : List Char → Option (List Char × List Char)
  | [] => none
  | '"' :: rest => some ([], rest)
  | '\\' :: c :: rest =>
    let esc : Option Char :=
      if c = '"' then some '"'
      else if c = '\\' then some '\\'
      else if c = '/' then some '/'
      else if c = 'n' then some '\n'
      else if c = 't' then some '\t'
      else if c = 'r' then some '\r'
      else if c = 'b' then some '\x08'
      else if c = 'f' then some '\x0c'
      else none
    match esc with
    | some e => (jsonStringBody rest).map (fun sr => (e :: sr.1, sr.2))
    | none => none
  | c :: rest =>
    if c.toNat < 32 then none
    else (jsonStringBody rest).map (fun sr => (c :: sr.1, sr.2))

/-- A JSON integer: optional minus, digit run without leading zeros;
inputs continuing into a fraction or exponent are outside the model
and rejected. -/
def parseJsonNumber (cs : List Char) : Option (Json × List Char) :=
  let core : List Char → Option (Int × List Char) := fun l =>
    let ds := l.takeWhile Char.isDigit
    if ds = [] then none
    else if ds.length > 1 && ds.headD '0' = '0' then none
    else some ((ds.foldl (fun n c => n * 10 + (c.toNat - 48)) (0 : Int)),
               l.drop ds.length)
  match cs with
  | '-' :: rest =>
    (core rest).bind (fun nr =>
      match nr.2 with
      | '.' :: _ => none
      | 'e' :: _ => none
      | 'E' :: _ => none
      | _ => some (Json.num (-nr.1), nr.2))
  | _ =>
    (core cs).bind (fun nr =>
      match nr.2 with
      | '.' :: _ => none
      | 'e' :: _ => none
      | 'E' :: _ => none
      | _ => some (Json.num nr.1, nr.2))

mutual
/-- One JSON value, by structural fuel (any fuel past the nesting
depth gives the same result). -/
def parseJsonValue : Nat → List Char → Option (Json × List Char)
  | 0, _ => none
  | Nat.succ fuel, cs =>
    match cs.dropWhile isJsonWs with
    | 'n' :: 'u' :: 'l' :: 'l' :: rest => some (.null, rest)
    | 't' :: 'r' :: 'u' :: 'e' :: rest => some (.bool true, rest)
    | 'f' :: 'a' :: 'l' :: 's' :: 'e' :: rest => some (.bool false, rest)
    | '"' :: rest => (jsonStringBody rest).map (fun sr => (.str ⟨sr.1⟩, sr.2))
    | '[' :: rest =>
      (match rest.dropWhile isJsonWs with
       | ']' :: r => some (.arr [], r)
       | r => (parseJsonElems fuel r).map (fun er => (.arr er.1, er.2)))
    | '{' :: rest =>
      (match rest.dropWhile isJsonWs with
       | '}' :: r => some (.obj [], r)
       | r => (parseJsonMembers fuel r).map (fun mr => (.obj mr.1, mr.2)))
    | rest => parseJsonNumber rest

def parseJsonElems : Nat → List Char → Option (List Json × List Char)
  | 0, _ => none
  | Nat.succ fuel, cs =>
    (parseJsonValue fuel cs).bind (fun vr =>
      match vr.2.dropWhile isJsonWs with
      | ',' :: r => (parseJsonElems fuel r).map (fun er => (vr.1 :: er.1, er.2))
      | ']' :: r => some ([vr.1], r)
      | _ => none)

def parseJsonMembers : Nat → List Char → Option (List (String × Json) × List Char)
  | 0, _ => none
  | Nat.succ fuel, cs =>
    match cs.dropWhile isJsonWs with
    | '"' :: rest =>
      (jsonStringBody rest).bind (fun kr =>
        match kr.2.dropWhile isJsonWs with
        | ':' :: rest2 =>
          (parseJsonValue fuel rest2).bind (fun vr =>
            match vr.2.dropWhile isJsonWs with
            | ',' :: r =>
              (parseJsonMembers fuel r).map
                (fun mr => ((⟨kr.1⟩, vr.1) :: mr.1, mr.2))
            | '}' :: r => some ([(⟨kr.1⟩, vr.1)], r)
            | _ => none)
        | _ => none)
    | _ => none
end

/-- The model of Python's `json.loads`: parse one value with
surrounding whitespace allowed and require the whole input consumed,
else fail. -/
def json_loads (s : String) : Option Json :=
  match parseJsonValue (s.data.length + 2) s.data with
  | some vr => if vr.2.dropWhile isJsonWs = [] then some vr.1 else none
  | none => none


/-- Index of the first occurrence of `needle` in `hay`, the model of a
leftmost regex literal search. -/
def findSubAux (needle : List Char) : List Char → Option Nat
  | [] => if needle = [] then some 0 else none
  | c :: t =>
    if (c :: t).take needle.length = needle then some 0
    else (findSubAux needle t).map (fun i => i + 1)

/-- The fenced-block search of hr_applicant.py line 367, the regex
for a block opened by a json-labelled fence and closed by a fence on
a new line, non-greedy: the content between the first fence opening
and the nearest following close.  (When the first opening has no
close, no later opening can have one either, so the regex finds no
match at all.) -/
def find_fenced (s : String) : Option String :=
  let cs := s.data
  let fence_open := "```json\n".data
  match findSubAux fence_open cs with
  | none => none
  | some i =>
    let tail := cs.drop (i + fence_open.length)
    match findSubAux "\n```".data tail with
    | none => none
    | some j => some ⟨tail.take j⟩

/-- The brace-span search of hr_applicant.py line 372: the greedy
regex over the whole text, matching from the first opening brace to
the last closing brace when the latter comes later. -/
def find_brace_span (s : String) : Option String :=
  let cs := s.data
  match cs.findIdx? (fun c => c = '{') with
  | none => none
  | some i =>
    match cs.reverse.findIdx? (fun c => c = '}') with
    | none => none
    | some k =>
      let j := cs.length - 1 - k
      if i < j then some ⟨(cs.take (j + 1)).drop i⟩ else none

/-- The raised `UserError` text of hr_applicant.py lines 393-396,
carrying the original raw response. -/
def unparsable_msg (response_text : String) : String :=
  "OpenAI returned an invalid response that could not be parsed. Raw text: "
    ++ response_text

/-- `HrApplicant._parse_openai_response` (hr_applicant.py lines
352-396): direct parse first; on failure pick the fenced block when
one exists, else the greedy brace span, strip it and parse it; any
remaining failure raises the error carrying the raw text.  Note that
once a candidate substring is selected its parse failure is final —
there is no fallthrough from a bad fenced block to the brace span. -/
def parse_openai_response (response_text : String) : Except String Json :=
  match json_loads response_text with
  | some v => .ok v
  | none =>
    match find_fenced response_text with
    | some block =>
      (match json_loads (pyStrip block) with
       | some v => .ok v
       | none => .error (unparsable_msg response_text))
    | none =>
      match find_brace_span response_text with
      | some span =>
        (match json_loads (pyStrip span) with
         | some v => .ok v
         | none => .error (unparsable_msg response_text))
      | none => .error (unparsable_msg response_text)

/-- Following the claim's words, for the counterexample only: the
first balanced top-level brace span of a text — from the first opening
brace to the brace that closes it. -/
def balanced_scan : List Char → Nat → List Char → Option (List Char)
  | [], _, _ => none
  | c :: t, depth, acc =>
    if c = '{' then balanced_scan t (depth + 1) (acc ++ [c])
    else if c = '}' then
      if depth = 1 then some (acc ++ [c])
      else balanced_scan t (depth - 1) (acc ++ [c])
    else balanced_scan t depth (acc ++ [c])

/-- Following the claim's words, for the counterexample only. -/
def first_balanced_brace_span (s : String) : Option String :=
  match s.data.dropWhile (fun c => c ≠ '{') with
  | [] => none
  | cs => (balanced_scan cs 0 []).map (fun l => ⟨l⟩)

/-- Claim C3 counterexample: on the input "{} x {}" the first balanced
top-level brace span is "{}", which parses, so under the claim step
(3) would succeed; the code instead takes the greedy span from the
first opening to the last closing brace — the whole input — which does
not parse, and raises the error carrying the raw text. -/
theorem claim_C3_counterexample :
    first_balanced_brace_span "\x7b\x7d x \x7b\x7d" = some "\x7b\x7d" ∧
    json_loads "\x7b\x7d" = some (.obj []) ∧
    find_brace_span "\x7b\x7d x \x7b\x7d" = some "\x7b\x7d x \x7b\x7d" ∧
    parse_openai_response "\x7b\x7d x \x7b\x7d"
      = .error (unparsable_msg "\x7b\x7d x \x7b\x7d") :=
  ⟨rfl, rfl, rfl, rfl⟩

/-- Claim C3 (amended): the normalizer applies this chain — (1) direct
parse of the whole text; failing that, (2) when a fenced block labeled
json exists, parse of its stripped contents, that parse's failure
being final; otherwise (3) when the text has an opening brace followed
later by a closing brace, parse of the stripped span from the first
opening brace to the last closing brace, that parse's failure being
final; (4) otherwise an error carrying the original raw text. -/
theorem claim_C3 (t : String) :
    (∀ v, json_loads t = some v → parse_openai_response t = .ok v) ∧
    (json_loads t = none → ∀ b, find_fenced t = some b →
      parse_openai_response t
        = (match json_loads (pyStrip b) with
           | some v => .ok v
           | none => .error (unparsable_msg t))) ∧
    (json_loads t = none → find_fenced t = none →
      ∀ sp, find_brace_span t = some sp →
      parse_openai_response t
        = (match json_loads (pyStrip sp) with
           | some v => .ok v
           | none => .error (unparsable_msg t))) ∧
    (json_loads t = none → find_fenced t = none → find_brace_span t = none →
      parse_openai_response t = .error (unparsable_msg t)) := by
  refine ⟨?_, ?_, ?_, ?_⟩
  · intro v hv
    rw [parse_openai_response, hv]
  · intro hd b hb
    rw [parse_openai_response, hd, hb]
  · intro hd hf sp hsp
    rw [parse_openai_response, hd, hf, hsp]
  · intro hd hf hbr
    rw [parse_openai_response, hd, hf, hbr]

/-- Witness for claim C3: the three shapes of the spec's round-trip
property — a direct object, a fenced block, and a brace span embedded
in prose — all normalize to the same value through the respective
chain steps. -/
theorem claim_C3_witness :
    parse_openai_response " \x7b \"a\" : 12 \x7d " = .ok (.obj [("a", .num 12)]) ∧
    parse_openai_response "noise ```json\n\x7b \"a\" : 12 \x7d\n``` tail"
      = .ok (.obj [("a", .num 12)]) ∧
    parse_openai_response "prose \x7b \"a\" : 12 \x7d end"
      = .ok (.obj [("a", .num 12)]) := by
  refine ⟨?_, ?_, ?_⟩
  · exact (claim_C3 " \x7b \"a\" : 12 \x7d ").1 (.obj [("a", .num 12)]) rfl
  · have h := (claim_C3 "noise ```json\n\x7b \"a\" : 12 \x7d\n``` tail").2.1
      rfl "\x7b \"a\" : 12 \x7d" rfl
    rw [h]
    rfl
  · have h := (claim_C3 "prose \x7b \"a\" : 12 \x7d end").2.2.1
      rfl rfl "\x7b \"a\" : 12 \x7d" rfl
    rw [h]
    rfl
